import Mathlib

/-
Verification of the security core of `src/systemd_control_api.py`.

The Python module delegates IP parsing to the standard `ipaddress` library
(`ip_address`, `ip_network(.., strict=False)`, `str(addr)`), so the embedding
below reproduces that library's parsing, canonical printing, equality and
containment semantics (CPython 3.11) alongside the module's own functions
`is_ip_allowed`, `verify_security`, `get_cors_origins`, `get_service_by_name`
and `control_service`.  Strings are processed through their character lists
so that every definition is executable by kernel reduction.
-/

/-- ASCII decimal digit test (Python `str.isascii() and str.isdigit()`). -/
def isAsciiDigit (c : Char) : Bool :=
  48 ≤ c.toNat && c.toNat ≤ 57

/-- Hexadecimal digit test (Python `_HEX_DIGITS = "0123456789ABCDEFabcdef"`). -/
def isHexDigitChar (c : Char) : Bool :=
  (48 ≤ c.toNat && c.toNat ≤ 57) || (97 ≤ c.toNat && c.toNat ≤ 102) ||
    (65 ≤ c.toNat && c.toNat ≤ 70)

/-- Numeric value of a decimal digit string (Python `int(s)` on checked digits). -/
def decimalVal (cs : List Char) : Nat :=
  cs.foldl (fun a c => a * 10 + (c.toNat - 48)) 0

/-- Numeric value of one hexadecimal digit. -/
def hexDigitVal (c : Char) : Nat :=
  if c.toNat ≤ 57 then c.toNat - 48
  else if 97 ≤ c.toNat then c.toNat - 87
  else c.toNat - 55

/-- Numeric value of a hexadecimal digit string (Python `int(s, 16)` on checked digits). -/
def hexVal (cs : List Char) : Nat :=
  cs.foldl (fun a c => a * 16 + hexDigitVal c) 0

/-- Python `s.split(sep)` for a one-character separator: always returns at
least one (possibly empty) group. -/
def splitOnChar (sep : Char) : List Char → List (List Char)
  | [] => [[]]
  | c :: cs =>
    let r := splitOnChar sep cs
    if c = sep then [] :: r
    else
      match r with
      | [] => [[c]]
      | g :: gs => (c :: g) :: gs

/-- ASCII lowercasing of one character, the fragment of Python `str.lower()`
relevant to the strings this program compares (`"localhost"` etc.). -/
def charLower (c : Char) : Char :=
  if 65 ≤ c.toNat ∧ c.toNat ≤ 90 then Char.ofNat (c.toNat + 32) else c

/-- Python `s.lower()` restricted to ASCII case mapping. -/
def strLower (s : String) : String :=
  String.mk (s.data.map charLower)

/-- Decimal digit characters of a natural number. -/
def natToDec (n : Nat) : List Char := Nat.toDigits 10 n

/-- Lowercase hexadecimal digit characters of a natural number (Python `"%x" % n`). -/
def natToHex (n : Nat) : List Char := Nat.toDigits 16 n

/-- One octet of an IPv4 dotted-quad string
(`ipaddress._BaseV4._parse_octet`): 1–3 ASCII digits, no leading zero,
value at most 255. -/
def parseOctet (cs : List Char) : Option Nat :=
  if cs = [] then none
  else if cs.all isAsciiDigit then
    if 3 < cs.length then none
    else if 1 < cs.length ∧ cs.headD '0' = '0' then none
    else if 255 < decimalVal cs then none
    else some (decimalVal cs)
  else none

/-- IPv4 address string to its 32-bit value
(`ipaddress._BaseV4._ip_int_from_string`): exactly four octets. -/
def ipv4FromString (cs : List Char) : Option Nat :=
  match (splitOnChar '.' cs).mapM parseOctet with
  | some [a, b, c, d] => some (((a * 256 + b) * 256 + c) * 256 + d)
  | _ => none

/-- One 16-bit group of an IPv6 string (`ipaddress._BaseV6._parse_hextet`):
1–4 hexadecimal digits. -/
def parseHextet (cs : List Char) : Option Nat :=
  if cs.all isHexDigitChar then
    if 4 < cs.length then none
    else if cs = [] then none
    else some (hexVal cs)
  else none

/-- Index of the group elided by `::`, if any: the unique empty group at an
interior position.  `none` here encodes the "multiple ::" parse error. -/
def findSkipIdx (parts : List (List Char)) : Option (Option Nat) :=
  match (List.range parts.length).filter
      (fun i => 0 < i ∧ i + 1 < parts.length ∧ parts.getD i ['x'] = []) with
  | [] => some none
  | [i] => some (some i)
  | _ => none

/-- Accumulate 16-bit groups into an integer (the `ip_int <<= 16; ip_int |= v`
loop of `_ip_int_from_string`). -/
def hextetFold (vs : List Nat) : Nat :=
  vs.foldl (fun a v => a * 65536 + v) 0

/-- Assemble the 128-bit value from the groups before and after the `::`
elision (`pHi` leading groups, `pLo` trailing groups, `skipped` zero groups
in between). -/
def assembleV6 (parts : List (List Char)) (pHi pLo skipped : Nat) : Option Nat :=
  match (parts.take pHi).mapM parseHextet,
        (parts.drop (parts.length - pLo)).mapM parseHextet with
  | some hi, some lo =>
    some (hextetFold hi * 2 ^ (16 * (skipped + pLo)) + hextetFold lo)
  | _, _ => none

/-- IPv6 address string (without scope) to its 128-bit value
(`ipaddress._BaseV6._ip_int_from_string`): colon groups, one optional `::`
elision, optional embedded IPv4 in the last group. -/
def ipv6FromString (cs : List Char) : Option Nat :=
  if cs = [] then none
  else
    let parts := splitOnChar ':' cs
    if parts.length < 3 then none
    else
      let expanded : Option (List (List Char)) :=
        if (parts.getLastD []).contains '.' then
          match ipv4FromString (parts.getLastD []) with
          | none => none
          | some v4 =>
            some (parts.dropLast ++ [natToHex (v4 / 65536), natToHex (v4 % 65536)])
        else some parts
      match expanded with
      | none => none
      | some parts2 =>
        if 9 < parts2.length then none
        else
          match findSkipIdx parts2 with
          | none => none
          | some (some skip) =>
            let headEmpty := parts2.headD ['x'] = []
            let tailEmpty := parts2.getLastD ['x'] = []
            let pHi := if headEmpty then skip - 1 else skip
            let pLo0 := parts2.length - skip - 1
            let pLo := if tailEmpty then pLo0 - 1 else pLo0
            if headEmpty ∧ pHi ≠ 0 then none
            else if tailEmpty ∧ pLo ≠ 0 then none
            else if 8 ≤ pHi + pLo then none
            else assembleV6 parts2 pHi pLo (8 - (pHi + pLo))
          | some none =>
            if parts2.length ≠ 8 then none
            else if parts2.headD ['x'] = [] then none
            else if parts2.getLastD ['x'] = [] then none
            else assembleV6 parts2 8 0 0

/-- Split a trailing `%scope` zone identifier
(`ipaddress.IPv6Address._split_scope_id`): the scope must be nonempty and
must not itself contain `%`. -/
def splitScope (cs : List Char) : Option (List Char × Option String) :=
  match splitOnChar '%' cs with
  | [a] => some (a, none)
  | [a, sc] => if sc = [] then none else some (a, some (String.mk sc))
  | _ => none

/-- A parsed IP address: a 32-bit IPv4 value, or a 128-bit IPv6 value with an
optional scope zone (`ipaddress.IPv4Address` / `IPv6Address`). -/
inductive IPAddr where
  | v4 (val : Nat)
  | v6 (val : Nat) (scope : Option String)
deriving DecidableEq

/-- `ipaddress.ip_address` on a character list: both constructors reject `/`;
IPv4 is tried first, then IPv6 with optional scope. -/
def ipAddressChars (cs : List Char) : Option IPAddr :=
  if cs.contains '/' then none
  else
    match ipv4FromString cs with
    | some v => some (.v4 v)
    | none =>
      match splitScope cs with
      | none => none
      | some (a, sc) =>
        match ipv6FromString a with
        | some v => some (.v6 v sc)
        | none => none

/-- `ipaddress.ip_address` on a string. -/
def ip_address (s : String) : Option IPAddr :=
  ipAddressChars s.data

/-- A parsed IP network: the (already masked) network address and the mask
length (`ipaddress.IPv4Network` / `IPv6Network`). -/
inductive IPNet where
  | v4 (netAddr : Nat) (maskLen : Nat)
  | v6 (netAddr : Nat) (maskLen : Nat)
deriving DecidableEq

/-- Mask length given in decimal form
(`ipaddress._IPAddressBase._prefix_from_prefix_string`): ASCII digits only,
value at most `maxLen`. -/
def maskLenFromDigits (cs : List Char) (maxLen : Nat) : Option Nat :=
  if cs ≠ [] then
    if cs.all isAsciiDigit then
      if decimalVal cs ≤ maxLen then some (decimalVal cs) else none
    else none
  else none

/-- Number of trailing zero bits, capped at `bits`
(`ipaddress._count_righthand_zero_bits`); the fuel exceeds any address width
used here. -/
def ctzAux : Nat → Nat → Nat
  | 0, _ => 0
  | fuel + 1, n => if n % 2 = 1 then 0 else 1 + ctzAux fuel (n / 2)

/-- `ipaddress._count_righthand_zero_bits`. -/
def countRightZeroBits (n bits : Nat) : Nat :=
  if n = 0 then bits else min bits (ctzAux 200 n)

/-- Mask length from an integer netmask that must be ones followed by zeroes
(`ipaddress._IPAddressBase._prefix_from_ip_int`). -/
def maskLenFromInt (ipInt maxLen : Nat) : Option Nat :=
  let tz := countRightZeroBits ipInt maxLen
  let p := maxLen - tz
  if ipInt / 2 ^ tz = 2 ^ p - 1 then some p else none

/-- IPv4 netmask component: decimal mask length, else dotted netmask, else
dotted hostmask (`ipaddress._BaseV4._make_netmask` with a string argument). -/
def v4MaskLen (cs : List Char) : Option Nat :=
  match maskLenFromDigits cs 32 with
  | some p => some p
  | none =>
    match ipv4FromString cs with
    | none => none
    | some ip =>
      match maskLenFromInt ip 32 with
      | some p => some p
      | none => maskLenFromInt (ip ^^^ (2 ^ 32 - 1)) 32

/-- Clear the low `h` bits of `x` (`x & netmask` for a value within the
address width, where the netmask has `h` trailing zero bits). -/
def maskLow (h x : Nat) : Nat :=
  (x / 2 ^ h) * 2 ^ h

/-- `ipaddress.IPv4Network(s, strict=False)`: optional `/netmask` suffix,
host bits cleared rather than rejected. -/
def v4NetworkChars (cs : List Char) : Option IPNet :=
  let addr := splitOnChar '/' cs
  if 2 < addr.length then none
  else
    match ipv4FromString (addr.headD []) with
    | none => none
    | some ip =>
      match (if addr.length = 2 then v4MaskLen (addr.getLastD []) else some 32) with
      | none => none
      | some p => some (.v4 (maskLow (32 - p) ip) p)

/-- `ipaddress.IPv6Network(s, strict=False)`: the network part is a full
`IPv6Address` (a scope zone is accepted; containment ignores it, so it is
dropped here), the netmask part only a decimal mask length. -/
def v6NetworkChars (cs : List Char) : Option IPNet :=
  let addr := splitOnChar '/' cs
  if 2 < addr.length then none
  else
    match splitScope (addr.headD []) with
    | none => none
    | some (a, _) =>
      match ipv6FromString a with
      | none => none
      | some ip =>
        match (if addr.length = 2 then maskLenFromDigits (addr.getLastD []) 128 else some 128) with
        | none => none
        | some p => some (.v6 (maskLow (128 - p) ip) p)

/-- `ipaddress.ip_network(s, strict=False)`: IPv4 first, then IPv6. -/
def ip_network (s : String) : Option IPNet :=
  match v4NetworkChars s.data with
  | some n => some n
  | none => v6NetworkChars s.data

/-- `addr in network` (`ipaddress._BaseNetwork.__contains__`): false across
families, otherwise a netmask comparison; the scope zone is ignored. -/
def netContains (net : IPNet) (addr : IPAddr) : Bool :=
  match net, addr with
  | .v4 na p, .v4 a => maskLow (32 - p) a == na
  | .v6 na p, .v6 a _ => maskLow (128 - p) a == na
  | _, _ => false

/-- `==` on parsed addresses: false across families; IPv6 equality includes
the scope zone (`ipaddress.IPv6Address.__eq__`). -/
def ipEq : IPAddr → IPAddr → Bool
  | .v4 a, .v4 b => a == b
  | .v6 a s, .v6 b t => a == b && s == t
  | _, _ => false

/-- Dotted-quad characters of a 32-bit value (`str(IPv4Address)`). -/
def ipv4Chars (n : Nat) : List Char :=
  natToDec (n / 2 ^ 24 % 256) ++ '.' :: natToDec (n / 2 ^ 16 % 256) ++
    '.' :: natToDec (n / 2 ^ 8 % 256) ++ '.' :: natToDec (n % 256)

/-- The eight 16-bit groups of a 128-bit value, in minimal lowercase hex. -/
def hextetsOf (n : Nat) : List (List Char) :=
  (List.range 8).map fun i => natToHex (n / 2 ^ (16 * (7 - i)) % 65536)

/-- Locate the best run of zero groups (`ipaddress._BaseV6._compress_hextets`
scan): returns (start, length) of the longest, leftmost run of `"0"` groups. -/
def scanZeroRuns : List (List Char) → Nat → Nat → Nat → Nat → Nat → Nat × Nat
  | [], _, bs, bl, _, _ => (bs, bl)
  | h :: t, i, bs, bl, cs, cl =>
    if h = ['0'] then
      let cs2 := if cl = 0 then i else cs
      let cl2 := cl + 1
      if bl < cl2 then scanZeroRuns t (i + 1) cs2 cl2 cs2 cl2
      else scanZeroRuns t (i + 1) bs bl cs2 cl2
    else scanZeroRuns t (i + 1) bs bl 0 0

/-- Replace the best zero run (of length at least 2) by an empty group, so
that joining with `:` produces the `::` elision
(`ipaddress._BaseV6._compress_hextets` splice). -/
def compressHextets (hx : List (List Char)) : List (List Char) :=
  let bsbl := scanZeroRuns hx 0 0 0 0 0
  let bs := bsbl.1
  let bl := bsbl.2
  if 1 < bl then
    let e := bs + bl
    let hx2 := if e = hx.length then hx ++ [[]] else hx
    let hx3 := hx2.take bs ++ [[]] ++ hx2.drop e
    if bs = 0 then [] :: hx3 else hx3
  else hx

/-- Canonical compressed characters of a 128-bit value (`str(IPv6Address)`
without scope). -/
def ipv6Chars (n : Nat) : List Char :=
  List.intercalate [':'] (compressHextets (hextetsOf n))

/-- `str(addr)`: canonical string form of a parsed address. -/
def ipStr : IPAddr → String
  | .v4 n => String.mk (ipv4Chars n)
  | .v6 n none => String.mk (ipv6Chars n)
  | .v6 n (some z) => String.mk (ipv6Chars n) ++ "%" ++ z

/-- The alias set from `is_ip_allowed`:
`localhost_aliases = {"localhost", "127.0.0.1", "::1"}`. -/
def localhostAliases : List String := ["localhost", "127.0.0.1", "::1"]

/-- One iteration of the `for allowed in allowed_hosts` loop in
`is_ip_allowed`, for a client that parsed as `client_addr`: the `localhost`
entry matches via the alias set; an entry with `/` is tried as a CIDR
network, any other entry as an exact address; a `ValueError` on the entry
falls back to literal string comparison with the raw client string. -/
def matchesEntry (client_ip : String) (client_addr : IPAddr) (allowed : String) : Bool :=
  if strLower allowed = "localhost" then
    localhostAliases.contains client_ip || localhostAliases.contains (ipStr client_addr)
  else if allowed.data.contains '/' then
    match ip_network allowed with
    | some net => netContains net client_addr
    | none => client_ip == allowed
  else
    match ip_address allowed with
    | some a => ipEq client_addr a
    | none => client_ip == allowed

/-- `is_ip_allowed(client_ip, allowed_hosts)` from
`src/systemd_control_api.py`: an unparseable client falls back to literal
membership in the list; a parsed client is matched entry by entry. -/
def is_ip_allowed (client_ip : String) (allowed_hosts : List String) : Bool :=
  match ip_address client_ip with
  | none => allowed_hosts.contains client_ip
  | some client_addr => allowed_hosts.any (fun allowed => matchesEntry client_ip client_addr allowed)

/-- The `start` / `stop` / `restart` action enum (`ServiceAction`). -/
inductive ServiceAction where
  | start
  | stop
  | restart
deriving DecidableEq

/-- One entry of the configured services list.  In the source these are JSON
objects with the keys `service`, `displayName` and `description` (plus an
optional `metadata` mapping that no claim touches). -/
structure ServiceRecord where
  service : String
  displayName : String
  description : String
deriving DecidableEq

/-- The `Config` dataclass: `api_key: str | None`, `port`, `services`,
`allowed_hosts`. -/
structure Config where
  api_key : Option String
  port : Nat
  services : List ServiceRecord
  allowed_hosts : List String

/-- `Config.has_api_key`: `bool(self.api_key)` — true iff the key is present
and nonempty. -/
def Config.has_api_key (c : Config) : Bool :=
  match c.api_key with
  | none => false
  | some s => !s.isEmpty

/-- `Config.has_host_restriction`: `len(self.allowed_hosts) > 0`. -/
def Config.has_host_restriction (c : Config) : Bool :=
  decide (0 < c.allowed_hosts.length)

/-- Outcome of `verify_security`: a normal return (grant) or an
`HTTPException` with status code and the reasons that built its detail. -/
inductive SecurityDecision where
  | granted
  | denied (statusCode : Nat) (reasons : List String)
deriving DecidableEq

/-- The `api_key_valid` flag of `verify_security`: only computed when the key
is configured; requires presented credentials equal to the configured key
(`credentials.credentials == CONFIG.api_key`). -/
def api_key_valid (c : Config) (credentials : Option String) : Bool :=
  if c.has_api_key then
    match credentials with
    | some tok => c.api_key == some tok
    | none => false
  else false

/-- The `host_valid` flag of `verify_security`: only computed when a host
restriction is configured; requires a connected client whose address passes
`is_ip_allowed`. -/
def host_valid (c : Config) (client : Option String) : Bool :=
  if c.has_host_restriction then
    match client with
    | some host => is_ip_allowed host c.allowed_hosts
    | none => false
  else false

/-- The `access_granted` combination rule of `verify_security`. -/
def access_granted (c : Config) (client credentials : Option String) : Bool :=
  if c.has_api_key && c.has_host_restriction then
    api_key_valid c credentials && host_valid c client
  else if c.has_api_key then api_key_valid c credentials
  else if c.has_host_restriction then host_valid c client
  else false

/-- The `reasons` list assembled on denial in `verify_security`;
`client.getD "unknown"` is the code's `client_host`. -/
def denial_reasons (c : Config) (client credentials : Option String) : List String :=
  (if c.has_api_key && !api_key_valid c credentials then ["invalid or missing API key"] else []) ++
    (if c.has_host_restriction && !host_valid c client then
      ["host " ++ client.getD "unknown" ++ " not in allowed list"] else [])

/-- `verify_security(request, credentials)` with the transport peeled away:
`client` is `request.client.host` when a peer is connected, `credentials`
the presented bearer token.  The `CONFIG is None` 500 path is outside the
model (a `Config` value is always supplied here). -/
def verify_security (c : Config) (client credentials : Option String) : SecurityDecision :=
  if !c.has_api_key && !c.has_host_restriction then .granted
  else if access_granted c client credentials then .granted
  else if c.has_api_key && !api_key_valid c credentials then
    .denied 401 (denial_reasons c client credentials)
  else .denied 403 (denial_reasons c client credentials)

/-- One `allowed_hosts` entry's contribution inside the `get_cors_origins`
loop. -/
def corsExpand (host : String) : List String :=
  if strLower host = "localhost" then ["http://localhost", "https://localhost"]
  else if host.data.contains '/' = false then ["http://" ++ host, "https://" ++ host]
  else []

/-- The `origins` accumulation loop of `get_cors_origins`. -/
def corsOriginsFold (hosts : List String) : List String :=
  hosts.foldl (fun origins host => origins ++ corsExpand host) []

/-- `get_cors_origins()`: wildcard when no security at all, empty without a
host restriction, otherwise the per-entry origin expansion (`CONFIG is None`
also yields the empty list). -/
def get_cors_origins (cfg : Option Config) : List String :=
  match cfg with
  | none => []
  | some c =>
    if !c.has_api_key && !c.has_host_restriction then ["*"]
    else if !c.has_host_restriction then []
    else corsOriginsFold c.allowed_hosts

/-- `get_service_by_name`: first configured record whose `service` field
equals the requested name. -/
def get_service_by_name (services : List ServiceRecord) (name : String) : Option ServiceRecord :=
  services.find? (fun s => s.service == name)

/-- Result of `control_service_via_dbus` — the backend collaborator returns a
`{success, message}` pair and the endpoint relays it. -/
structure BackendResult where
  success : Bool
  message : String

/-- Outcome of the `POST /service/{service_name}/{action}` handler body: the
404 `HTTPException` or the `ServiceControlResponse`. -/
inductive ControlOutcome where
  | notFound (detail : String)
  | ok (success : Bool) (message : String) (display_name : String)
deriving DecidableEq

/-- The `control_service` endpoint body (after the security dependency):
look the service up, 404 when absent, otherwise call the backend and shape
its result with the configured display name.  The backend is passed as a
function so that its use (or non-use) is visible in the theorems. -/
def control_service (services : List ServiceRecord)
    (backend : String → ServiceAction → BackendResult)
    (service_name : String) (action : ServiceAction) : ControlOutcome :=
  match get_service_by_name services service_name with
  | none => .notFound ("Service '" ++ service_name ++ "' not found in configured services")
  | some service_info =>
    let result := backend service_name action
    .ok result.success result.message service_info.displayName

-- scratch tests
example : ip_network "192.168.1.0/24" = some (.v4 3232235776 24) := by decide
example : ip_network "192.168.1.7/24" = some (.v4 3232235776 24) := by decide
example : ip_network "192.168.1.0/255.255.255.0" = some (.v4 3232235776 24) := by decide
example : ip_network "192.168.1.0/0.0.0.255" = some (.v4 3232235776 24) := by decide
example : ip_network "10.0.0.0/40" = none := by decide
example : ip_network "2001:db8::/32" = some (.v6 (0x20010db8 * 2 ^ 96) 32) := by decide
example : ip_network "::1" = some (.v6 1 128) := by decide
example : ip_network "1.2.3.4" = some (.v4 16909060 32) := by decide
example : ip_network "bad//cidr" = none := by decide
example : ip_network "192.168.1.0/" = none := by decide
example : ip_network "0.0.0.0/0" = some (.v4 0 0) := by decide
example : ipStr (.v4 2130706433) = "127.0.0.1" := by decide
example : ipStr (.v6 1 none) = "::1" := by decide
example : ipStr (.v6 0 none) = "::" := by decide
example : ipStr (.v6 (2 ^ 112) none) = "1::" := by decide
example : ipStr (.v6 (0xff * 2 ^ 112 + 1) none) = "ff::1" := by decide
example : ipStr (.v6 (2 ^ 112 + 2 * 2 ^ 64 + 3) none) = "1:0:0:2::3" := by decide
example : ipStr (.v6 (0xfe80 * 2 ^ 112 + 1) (some "eth0")) = "fe80::1%eth0" := by decide
example : is_ip_allowed "192.168.1.100" ["192.168.1.100"] = true := by decide
example : is_ip_allowed "192.168.1.101" ["192.168.1.100"] = false := by decide
example : is_ip_allowed "192.168.1.1" ["192.168.1.0/24"] = true := by decide
example : is_ip_allowed "192.168.1.254" ["192.168.1.0/24"] = true := by decide
example : is_ip_allowed "192.168.2.1" ["192.168.1.0/24"] = false := by decide
example : is_ip_allowed "127.0.0.1" ["localhost"] = true := by decide
example : is_ip_allowed "::1" ["localhost"] = true := by decide
example : is_ip_allowed "192.168.1.1" ["localhost"] = false := by decide
example : is_ip_allowed "::1" ["::1"] = true := by decide
example : is_ip_allowed "2001:db8::1" ["2001:db8::1"] = true := by decide
example : is_ip_allowed "2001:db8::2" ["2001:db8::1"] = false := by decide
example : is_ip_allowed "2001:db8::1" ["2001:db8::/32"] = true := by decide
example : is_ip_allowed "2001:db8:1::1" ["2001:db8::/32"] = true := by decide
example : is_ip_allowed "2001:db9::1" ["2001:db8::/32"] = false := by decide
example : is_ip_allowed "127.0.0.1" ["localhost", "192.168.1.0/24", "10.0.0.5"] = true := by decide
example : is_ip_allowed "192.168.1.50" ["localhost", "192.168.1.0/24", "10.0.0.5"] = true := by decide
example : is_ip_allowed "10.0.0.5" ["localhost", "192.168.1.0/24", "10.0.0.5"] = true := by decide
example : is_ip_allowed "10.0.0.6" ["localhost", "192.168.1.0/24", "10.0.0.5"] = false := by decide
example : is_ip_allowed "127.0.0.1" [] = false := by decide
example : is_ip_allowed "not-an-ip" ["not-an-ip"] = true := by decide
example : is_ip_allowed "not-an-ip" ["localhost"] = false := by decide
example : is_ip_allowed "myhost.local" ["myhost.local"] = true := by decide
example : is_ip_allowed "10.0.0.1" ["localhost"] = false := by decide
example : is_ip_allowed "192.168.1.200" ["192.168.1.0/24"] = true := by decide
example : is_ip_allowed "LOCALHOST" ["LOCALHOST"] = true := by decide
example : is_ip_allowed "localhost" ["Localhost"] = false := by decide

example : ip_address "127.0.0.1" = some (.v4 2130706433) := by decide
example : ip_address "::1" = some (.v6 1 none) := by decide
example : ip_address "0:0:0:0:0:0:0:1" = some (.v6 1 none) := by decide
example : ip_address "LOCALHOST" = none := by decide
example : ip_address "127.000.0.1" = none := by decide
example : ip_address "1.2.3.04" = none := by decide
example : ip_address "::ffff:1.2.3.4" = some (.v6 (0xffff * 2 ^ 32 + 0x01020304) none) := by decide
example : ip_address "fe80::1%eth0" = some (.v6 (0xfe80 * 2 ^ 112 + 1) (some "eth0")) := by decide
example : ip_address "::1%a/b" = none := by decide
example : ip_address "1:2:3:4:5:6:7:8:9" = none := by decide
example : ip_address ":1:2:3:4:5:6:7" = none := by decide
example : ip_address "256.1.1.1" = none := by decide
example : ip_address "1::" = some (.v6 (2 ^ 112) none) := by decide
example : ip_address "::" = some (.v6 0 none) := by decide
example : ip_address "10.0.0.1" = some (.v4 167772161) := by decide

example : is_ip_allowed "0:0:0:0:0:0:0:1" ["localhost"] = true := by decide
example : is_ip_allowed "1.2.3.4" ["zz/cidr"] = false := by decide
example : is_ip_allowed "1.2.3.4" ["zz/cidr", "1.2.3.0/24"] = true := by decide
example : is_ip_allowed "fe80::1%eth0" ["fe80::1%eth0"] = true := by decide
example : is_ip_allowed "fe80::1%eth0" ["fe80::1"] = false := by decide
example : is_ip_allowed "fe80::1%eth0" ["fe80::/10"] = true := by decide

-- scratch tests for the application layer
example :
    verify_security ⟨some "k", 8080, [], []⟩ (some "9.9.9.9") (some "k") = .granted := by decide
example :
    verify_security ⟨some "k", 8080, [], []⟩ (some "9.9.9.9") (some "wrong") =
      .denied 401 ["invalid or missing API key"] := by decide
example :
    verify_security ⟨some "k", 8080, [], []⟩ (some "9.9.9.9") none =
      .denied 401 ["invalid or missing API key"] := by decide
example :
    verify_security ⟨none, 8080, [], []⟩ none none = .granted := by decide
example :
    verify_security ⟨some "", 8080, [], []⟩ (some "x") none = .granted := by decide
example :
    verify_security ⟨none, 8080, [], ["127.0.0.1"]⟩ (some "127.0.0.1") none = .granted := by decide
example :
    verify_security ⟨none, 8080, [], ["127.0.0.1"]⟩ (some "10.0.0.1") none =
      .denied 403 ["host 10.0.0.1 not in allowed list"] := by decide
example :
    verify_security ⟨some "k", 8080, [], ["127.0.0.1"]⟩ (some "10.0.0.1") none =
      .denied 401 ["invalid or missing API key", "host 10.0.0.1 not in allowed list"] := by decide
example :
    verify_security ⟨some "k", 8080, [], ["127.0.0.1"]⟩ (some "127.0.0.1") (some "k") = .granted := by decide
example :
    verify_security ⟨some "k", 8080, [], ["127.0.0.1"]⟩ (some "10.0.0.1") (some "k") =
      .denied 403 ["host 10.0.0.1 not in allowed list"] := by decide
example :
    verify_security ⟨some "k", 8080, [], ["127.0.0.1"]⟩ none (some "k") =
      .denied 403 ["host unknown not in allowed list"] := by decide
example : get_cors_origins none = [] := by decide
example : get_cors_origins (some ⟨none, 8080, [], []⟩) = ["*"] := by decide
example : get_cors_origins (some ⟨some "k", 8080, [], []⟩) = [] := by decide
example : get_cors_origins (some ⟨none, 8080, [], ["192.168.1.0/24"]⟩) = [] := by decide
example :
    get_cors_origins (some ⟨none, 8080, [], ["LocalHost", "10.0.0.1", "10.0.0.0/8"]⟩) =
      ["http://localhost", "https://localhost", "http://10.0.0.1", "https://10.0.0.1"] := by decide
example :
    control_service [⟨"nginx.service", "Web Server", "d"⟩]
      (fun _ _ => ⟨true, "Service restart successful"⟩) "nginx.service" .restart =
      .ok true "Service restart successful" "Web Server" := by decide
example :
    control_service [⟨"nginx.service", "Web Server", "d"⟩]
      (fun _ _ => ⟨true, "m"⟩) "unknown.service" .restart =
      .notFound "Service 'unknown.service' not found in configured services" := by decide

/- ===== Helper lemmas ===== -/

theorem api_key_valid_iff (c : Config) (credentials : Option String)
    (h : c.has_api_key = true) :
    api_key_valid c credentials = true ↔
      ∃ k, credentials = some k ∧ c.api_key = some k := by
  unfold api_key_valid
  rw [h]
  cases credentials with
  | none => simp
  | some t =>
    constructor
    · intro hb
      simp at hb
      exact ⟨t, rfl, hb⟩
    · rintro ⟨k, hk, hak⟩
      injection hk with hk2
      subst hk2
      simp [hak]

theorem api_key_valid_false (c : Config) (credentials : Option String)
    (h : c.has_api_key = false) : api_key_valid c credentials = false := by
  simp [api_key_valid, h]

theorem host_valid_some (c : Config) (ip : String)
    (h : c.has_host_restriction = true) :
    host_valid c (some ip) = is_ip_allowed ip c.allowed_hosts := by
  simp [host_valid, h]

theorem host_valid_false (c : Config) (client : Option String)
    (h : c.has_host_restriction = false) : host_valid c client = false := by
  simp [host_valid, h]

theorem host_reason_ne (h : String) :
    ("host " ++ h ++ " not in allowed list") ≠ "invalid or missing API key" := by
  intro heq
  have hd := congrArg String.data heq
  rw [String.data_append, String.data_append] at hd
  have h1 : ("host " : String).data = ['h', 'o', 's', 't', ' '] := rfl
  have h2 : ("invalid or missing API key" : String).data =
      'i' :: ("nvalid or missing API key" : String).data := rfl
  rw [h1, h2] at hd
  simp only [List.cons_append, List.append_assoc] at hd
  injection hd with hd1 _
  exact absurd hd1 (by decide)

/- ===== Claim theorems ===== -/

/-- C5: for every client string, parseable as an IP address or not,
`is_ip_allowed` with the empty allowlist returns false. -/
theorem c5_empty_allowlist_never_matches (ip : String) :
    is_ip_allowed ip [] = false := by
  rw [is_ip_allowed.eq_def]
  cases h : ip_address ip <;> rfl

/-- C2: with the API key empty or absent and the allowlist empty,
`verify_security` grants every request, for every client and every presented
or absent bearer token. -/
theorem c2_no_security_grants_all (c : Config) (client credentials : Option String)
    (hkey : c.api_key = none ∨ c.api_key = some "")
    (hhosts : c.allowed_hosts = []) :
    verify_security c client credentials = .granted := by
  have h1 : c.has_api_key = false := by
    rcases hkey with h | h
    · simp [Config.has_api_key, h]
    · simp [Config.has_api_key, h]
      rfl
  have h2 : c.has_host_restriction = false := by
    simp [Config.has_host_restriction, hhosts]
  simp [verify_security, h1, h2]

/-- Witness for C2 at a concrete configuration and request. -/
theorem c2_witness :
    verify_security ⟨none, 8080, [], []⟩ (some "10.0.0.1") (some "token") = .granted :=
  c2_no_security_grants_all _ _ _ (Or.inl rfl) rfl

/-- C1: with both the API key and the host allowlist configured,
`verify_security` grants iff the presented bearer token equals the configured
key and `is_ip_allowed` accepts the client address; a denial with a failed
key check is a 401 regardless of the host outcome, and a denial where only
the host check failed is a 403. -/
theorem c1_both_methods_must_pass (c : Config) (ip : String) (credentials : Option String)
    (hak : c.has_api_key = true) (hhr : c.has_host_restriction = true) :
    (verify_security c (some ip) credentials = .granted ↔
      ((∃ k, credentials = some k ∧ c.api_key = some k) ∧
        is_ip_allowed ip c.allowed_hosts = true))
    ∧ ((¬ ∃ k, credentials = some k ∧ c.api_key = some k) →
        verify_security c (some ip) credentials =
          .denied 401 (denial_reasons c (some ip) credentials))
    ∧ ((∃ k, credentials = some k ∧ c.api_key = some k) →
        is_ip_allowed ip c.allowed_hosts = false →
        verify_security c (some ip) credentials =
          .denied 403 (denial_reasons c (some ip) credentials)) := by
  have hiff := api_key_valid_iff c credentials hak
  have hhv := host_valid_some c ip hhr
  simp only [← hiff]
  cases hav : api_key_valid c credentials <;>
    cases hia : is_ip_allowed ip c.allowed_hosts <;>
    simp [verify_security, access_granted, hak, hhr, hav, hhv, hia]

/-- Witness for C1: both checks pass at a concrete configuration, and the two
denial classifications appear at concrete failing requests. -/
theorem c1_witness :
    verify_security ⟨some "secret", 8080, [], ["127.0.0.1"]⟩ (some "127.0.0.1")
        (some "secret") = .granted
    ∧ verify_security ⟨some "secret", 8080, [], ["127.0.0.1"]⟩ (some "10.0.0.9")
        (some "wrong") =
      .denied 401 (denial_reasons ⟨some "secret", 8080, [], ["127.0.0.1"]⟩
        (some "10.0.0.9") (some "wrong"))
    ∧ verify_security ⟨some "secret", 8080, [], ["127.0.0.1"]⟩ (some "10.0.0.9")
        (some "secret") =
      .denied 403 (denial_reasons ⟨some "secret", 8080, [], ["127.0.0.1"]⟩
        (some "10.0.0.9") (some "secret")) :=
  ⟨(c1_both_methods_must_pass ⟨some "secret", 8080, [], ["127.0.0.1"]⟩ "127.0.0.1"
      (some "secret") (by decide) (by decide)).1.mpr ⟨⟨"secret", rfl, rfl⟩, by decide⟩,
    (c1_both_methods_must_pass ⟨some "secret", 8080, [], ["127.0.0.1"]⟩ "10.0.0.9"
      (some "wrong") (by decide) (by decide)).2.1 (by simp),
    (c1_both_methods_must_pass ⟨some "secret", 8080, [], ["127.0.0.1"]⟩ "10.0.0.9"
      (some "secret") (by decide) (by decide)).2.2 ⟨"secret", rfl, rfl⟩ (by decide)⟩

/-- C3: with exactly one security method configured: API key only — grant iff
the presented token equals the configured key, every denial a 401; allowlist
only — grant iff `is_ip_allowed` accepts the client, every denial a 403. -/
theorem c3_single_method (c : Config) :
    (∀ (client credentials : Option String),
      c.has_api_key = true → c.has_host_restriction = false →
      ((verify_security c client credentials = .granted ↔
          ∃ k, credentials = some k ∧ c.api_key = some k)
        ∧ ∀ s rs, verify_security c client credentials = .denied s rs → s = 401))
    ∧ (∀ (ip : String) (credentials : Option String),
      c.has_api_key = false → c.has_host_restriction = true →
      ((verify_security c (some ip) credentials = .granted ↔
          is_ip_allowed ip c.allowed_hosts = true)
        ∧ ∀ s rs, verify_security c (some ip) credentials = .denied s rs → s = 403)) := by
  constructor
  · intro client credentials hak hhr
    have hiff := api_key_valid_iff c credentials hak
    simp only [← hiff]
    cases hav : api_key_valid c credentials <;>
      simp [verify_security, access_granted, hak, hhr, hav]
  · intro ip credentials hak hhr
    have hhv := host_valid_some c ip hhr
    cases hia : is_ip_allowed ip c.allowed_hosts <;>
      simp [verify_security, access_granted, api_key_valid_false c credentials hak,
        hak, hhr, hhv, hia]

/-- Witness for C3: concrete grants and denials under each single-method
configuration. -/
theorem c3_witness :
    verify_security ⟨some "k1", 8080, [], []⟩ none (some "k1") = .granted
    ∧ verify_security ⟨some "k1", 8080, [], []⟩ none (some "bad") =
        .denied 401 ["invalid or missing API key"]
    ∧ (401 : Nat) = 401
    ∧ verify_security ⟨none, 8080, [], ["10.0.0.5"]⟩ (some "10.0.0.5") none = .granted
    ∧ verify_security ⟨none, 8080, [], ["10.0.0.5"]⟩ (some "10.0.0.6") none =
        .denied 403 ["host 10.0.0.6 not in allowed list"]
    ∧ (403 : Nat) = 403 :=
  ⟨((c3_single_method ⟨some "k1", 8080, [], []⟩).1 none (some "k1") (by decide)
      (by decide)).1.mpr ⟨"k1", rfl, rfl⟩,
    by decide,
    ((c3_single_method ⟨some "k1", 8080, [], []⟩).1 none (some "bad") (by decide)
      (by decide)).2 401 ["invalid or missing API key"] (by decide),
    ((c3_single_method ⟨none, 8080, [], ["10.0.0.5"]⟩).2 "10.0.0.5" none (by decide)
      (by decide)).1.mpr (by decide),
    by decide,
    ((c3_single_method ⟨none, 8080, [], ["10.0.0.5"]⟩).2 "10.0.0.6" none (by decide)
      (by decide)).2 403 ["host 10.0.0.6 not in allowed list"] (by decide)⟩

/-- C4: on every denial, the reasons list contains
`"invalid or missing API key"` iff the key was configured and its check
failed, and `"host <client_host> not in allowed list"` iff the host
restriction was configured and its check failed — independent flags that can
both appear. -/
theorem c4_denial_reasons_independent (c : Config) (client credentials : Option String)
    (s : Nat) (rs : List String)
    (h : verify_security c client credentials = .denied s rs) :
    ("invalid or missing API key" ∈ rs ↔
      (c.has_api_key = true ∧ api_key_valid c credentials = false))
    ∧ (("host " ++ client.getD "unknown" ++ " not in allowed list") ∈ rs ↔
      (c.has_host_restriction = true ∧ host_valid c client = false)) := by
  have hne := host_reason_ne (client.getD "unknown")
  cases hA : c.has_api_key <;> cases hH : c.has_host_restriction
  · simp [verify_security, hA, hH] at h
  · have hav := api_key_valid_false c credentials hA
    cases hhv : host_valid c client <;>
      simp [verify_security, access_granted, denial_reasons, hA, hH, hav, hhv,
        hne, Ne.symm hne] at h ⊢
    exact h.2.symm ▸ by simp [hne, Ne.symm hne]
  · have hhv := host_valid_false c client hH
    cases hav : api_key_valid c credentials <;>
      simp [verify_security, access_granted, denial_reasons, hA, hH, hav, hhv,
        hne, Ne.symm hne] at h ⊢
    exact h.2.symm ▸ by simp [hne, Ne.symm hne]
  · cases hav : api_key_valid c credentials <;> cases hhv : host_valid c client <;>
      simp [verify_security, access_granted, denial_reasons, hA, hH, hav, hhv,
        hne, Ne.symm hne] at h ⊢ <;>
      exact h.2.symm ▸ by simp [hne, Ne.symm hne]

/-- Witness for C4 at a concrete double-failure denial: both reasons present,
both right-hand sides true. -/
theorem c4_witness :
    (("invalid or missing API key" ∈
        (["invalid or missing API key", "host 10.0.0.9 not in allowed list"] : List String)) ↔
      ((⟨some "secret", 8080, [], ["127.0.0.1"]⟩ : Config).has_api_key = true ∧
        api_key_valid ⟨some "secret", 8080, [], ["127.0.0.1"]⟩ (some "wrong") = false))
    ∧ (("host " ++ (some "10.0.0.9" : Option String).getD "unknown" ++ " not in allowed list") ∈
        (["invalid or missing API key", "host 10.0.0.9 not in allowed list"] : List String) ↔
      ((⟨some "secret", 8080, [], ["127.0.0.1"]⟩ : Config).has_host_restriction = true ∧
        host_valid ⟨some "secret", 8080, [], ["127.0.0.1"]⟩ (some "10.0.0.9") = false)) :=
  c4_denial_reasons_independent ⟨some "secret", 8080, [], ["127.0.0.1"]⟩ (some "10.0.0.9")
    (some "wrong") 401 ["invalid or missing API key", "host 10.0.0.9 not in allowed list"]
    (by decide)

theorem lower_localhost_no_slash (e : String) (h : strLower e = "localhost") :
    e.data.contains '/' = false := by
  by_contra hc
  rw [Bool.not_eq_false, List.contains_eq_any_beq, List.any_eq_true] at hc
  obtain ⟨x, hx, hbx⟩ := hc
  have hxe : x = '/' := (beq_iff_eq.mp hbx).symm
  subst hxe
  have hmem : charLower '/' ∈ e.data.map charLower := List.mem_map_of_mem charLower hx
  have hdata : (strLower e).data = e.data.map charLower := rfl
  rw [← hdata, h] at hmem
  have hid : charLower '/' = '/' := by decide
  rw [hid] at hmem
  exact absurd hmem (by decide)

/-- C6 counterexample: the claim's case-insensitive `localhost` rule does not
extend to clients that fail to parse as IP addresses.  The entry
`"LOCALHOST"` is `"localhost"` up to case, the client string `"LOCALHOST"`
neither parses nor belongs to the alias set `{localhost, 127.0.0.1, ::1}`,
yet the request matches (through the literal-membership fallback); and
conversely the client `"localhost"`, whose literal string is in the alias
set, does not match the entry `"Localhost"`. -/
theorem c6_counterexample :
    (strLower "LOCALHOST" = "localhost"
      ∧ is_ip_allowed "LOCALHOST" ["LOCALHOST"] = true
      ∧ ip_address "LOCALHOST" = none
      ∧ "LOCALHOST" ∉ localhostAliases)
    ∧ (strLower "Localhost" = "localhost"
      ∧ is_ip_allowed "localhost" ["Localhost"] = false
      ∧ "localhost" ∈ localhostAliases) :=
  ⟨⟨by decide, by decide, by decide, by decide⟩, by decide, by decide, by decide⟩

/-- C6 (amended): for clients that parse as IP addresses, an entry equal to
`"localhost"` up to ASCII case matches exactly the clients whose literal
string or canonical parsed-string form lies in
`{localhost, 127.0.0.1, ::1}`; a client that does not parse matches the list
only by literal string membership.  The three concrete instances of the
claim hold as stated. -/
theorem c6_localhost_entry (ip : String) (addr : IPAddr) (e : String)
    (hip : ip_address ip = some addr) (hlow : strLower e = "localhost") :
    is_ip_allowed "127.0.0.1" ["localhost"] = true
    ∧ is_ip_allowed "::1" ["localhost"] = true
    ∧ is_ip_allowed "10.0.0.1" ["localhost"] = false
    ∧ (is_ip_allowed ip [e] = true ↔
        (ip ∈ localhostAliases ∨ ipStr addr ∈ localhostAliases))
    ∧ (∀ (ip2 : String) (hosts : List String), ip_address ip2 = none →
        is_ip_allowed ip2 hosts = hosts.contains ip2) := by
  refine ⟨by decide, by decide, by decide, ?_, ?_⟩
  · rw [is_ip_allowed.eq_def, hip]
    simp [matchesEntry, hlow, List.contains, List.elem_iff]
  · intro ip2 hosts hip2
    rw [is_ip_allowed.eq_def, hip2]

/-- Witness for C6 (amended): the parsed-client rule at a concrete
non-canonical IPv6 client and a mixed-case entry, and the literal fallback at
a concrete unparseable client. -/
theorem c6_witness :
    (is_ip_allowed "0:0:0:0:0:0:0:1" ["LocalHost"] = true ↔
      ("0:0:0:0:0:0:0:1" ∈ localhostAliases ∨ ipStr (.v6 1 none) ∈ localhostAliases))
    ∧ is_ip_allowed "not-an-ip" ["localhost"] =
        (["localhost"] : List String).contains "not-an-ip" :=
  ⟨(c6_localhost_entry "0:0:0:0:0:0:0:1" (.v6 1 none) "LocalHost" (by decide)
      (by decide)).2.2.2.1,
    (c6_localhost_entry "0:0:0:0:0:0:0:1" (.v6 1 none) "LocalHost" (by decide)
      (by decide)).2.2.2.2 "not-an-ip" ["localhost"] (by decide)⟩

/-- C7: an entry containing `/` that parses as a CIDR network (with host-bit
tolerance) matches exactly the clients the network contains; and a parsed
client of one IP family never matches a non-`localhost` entry of the other
family, neither by CIDR containment nor by exact-address equality. -/
theorem c7_cidr_and_family_separation :
    is_ip_allowed "192.168.1.200" ["192.168.1.0/24"] = true
    ∧ is_ip_allowed "192.168.2.1" ["192.168.1.0/24"] = false
    ∧ (∀ (ip : String) (addr : IPAddr) (e : String) (net : IPNet),
        ip_address ip = some addr → e.data.contains '/' = true →
        ip_network e = some net →
        is_ip_allowed ip [e] = netContains net addr)
    ∧ (∀ (ip : String) (v : Nat) (e : String),
        ip_address ip = some (.v4 v) → strLower e ≠ "localhost" →
        ((∀ n p, e.data.contains '/' = true → ip_network e = some (.v6 n p) →
            matchesEntry ip (.v4 v) e = false)
          ∧ (∀ w sc, e.data.contains '/' = false → ip_address e = some (.v6 w sc) →
            matchesEntry ip (.v4 v) e = false)))
    ∧ (∀ (ip : String) (w : Nat) (sc : Option String) (e : String),
        ip_address ip = some (.v6 w sc) → strLower e ≠ "localhost" →
        ((∀ n p, e.data.contains '/' = true → ip_network e = some (.v4 n p) →
            matchesEntry ip (.v6 w sc) e = false)
          ∧ (∀ v, e.data.contains '/' = false → ip_address e = some (.v4 v) →
            matchesEntry ip (.v6 w sc) e = false))) := by
  refine ⟨by decide, by decide, ?_, ?_, ?_⟩
  · intro ip addr e net hip hslash hnet
    have hlocal : ¬ strLower e = "localhost" := by
      intro hl
      rw [lower_localhost_no_slash e hl] at hslash
      exact Bool.false_ne_true hslash
    rw [is_ip_allowed.eq_def, hip]
    simp only [List.any_cons, List.any_nil, Bool.or_false]
    rw [matchesEntry.eq_def, if_neg hlocal, if_pos hslash, hnet]
  · intro ip v e hip hlocal
    constructor
    · intro n p hslash hnet
      rw [matchesEntry.eq_def, if_neg hlocal, if_pos hslash, hnet]
      rfl
    · intro w sc hslash haddr
      have hns : ¬ e.data.contains '/' = true := by rw [hslash]; exact Bool.false_ne_true
      rw [matchesEntry.eq_def, if_neg hlocal, if_neg hns, haddr]
      rfl
  · intro ip w sc e hip hlocal
    constructor
    · intro n p hslash hnet
      rw [matchesEntry.eq_def, if_neg hlocal, if_pos hslash, hnet]
      rfl
    · intro v hslash haddr
      have hns : ¬ e.data.contains '/' = true := by rw [hslash]; exact Bool.false_ne_true
      rw [matchesEntry.eq_def, if_neg hlocal, if_neg hns, haddr]
      rfl

/-- Witness for C7: the CIDR rule, and the four cross-family shapes, applied
at concrete addresses and entries. -/
theorem c7_witness :
    is_ip_allowed "10.1.2.3" ["10.0.0.0/8"] = netContains (.v4 167772160 8) (.v4 167838211)
    ∧ matchesEntry "1.2.3.4" (.v4 16909060) "::1/128" = false
    ∧ matchesEntry "1.2.3.4" (.v4 16909060) "::2" = false
    ∧ matchesEntry "::1" (.v6 1 none) "10.0.0.0/8" = false
    ∧ matchesEntry "::1" (.v6 1 none) "10.0.0.1" = false :=
  ⟨c7_cidr_and_family_separation.2.2.1 "10.1.2.3" (.v4 167838211) "10.0.0.0/8"
      (.v4 167772160 8) (by decide) (by decide) (by decide),
    (c7_cidr_and_family_separation.2.2.2.1 "1.2.3.4" 16909060 "::1/128" (by decide)
      (by decide)).1 1 128 (by decide) (by decide),
    (c7_cidr_and_family_separation.2.2.2.1 "1.2.3.4" 16909060 "::2" (by decide)
      (by decide)).2 2 none (by decide) (by decide),
    (c7_cidr_and_family_separation.2.2.2.2 "::1" 1 none "10.0.0.0/8" (by decide)
      (by decide)).1 167772160 8 (by decide) (by decide),
    (c7_cidr_and_family_separation.2.2.2.2 "::1" 1 none "10.0.0.1" (by decide)
      (by decide)).2 167772161 (by decide) (by decide)⟩

theorem corsOriginsFold_append (hosts : List String) (acc : List String) :
    hosts.foldl (fun origins host => origins ++ corsExpand host) acc =
      acc ++ hosts.flatMap corsExpand := by
  induction hosts generalizing acc with
  | nil => simp
  | cons h t ih => simp [ih, List.flatMap_cons, List.append_assoc]

theorem corsOriginsFold_eq (hosts : List String) :
    corsOriginsFold hosts = hosts.flatMap corsExpand := by
  simpa using corsOriginsFold_append hosts []

/-- C8: `get_cors_origins` yields the wildcard list when no security method
is configured, the empty list when an API key is set but no host restriction,
and otherwise the per-entry expansion over `allowed_hosts` — `localhost`
(up to case) becoming its http/https origins, any non-CIDR entry its
http/https forms, and a CIDR entry nothing; in particular a lone CIDR entry
without an API key yields the empty list. -/
theorem c8_cors_origins (c : Config) :
    (c.has_api_key = false → c.has_host_restriction = false →
      get_cors_origins (some c) = ["*"])
    ∧ (c.has_api_key = true → c.has_host_restriction = false →
      get_cors_origins (some c) = [])
    ∧ (c.has_host_restriction = true →
      get_cors_origins (some c) = c.allowed_hosts.flatMap corsExpand)
    ∧ (c.has_api_key = false → c.allowed_hosts = ["192.168.1.0/24"] →
      get_cors_origins (some c) = []) := by
  refine ⟨?_, ?_, ?_, ?_⟩
  · intro h1 h2
    simp [get_cors_origins, h1, h2]
  · intro h1 h2
    simp [get_cors_origins, h1, h2]
  · intro h2
    simp [get_cors_origins, h2, corsOriginsFold_eq]
  · intro h1 hhosts
    have h2 : c.has_host_restriction = true := by
      simp [Config.has_host_restriction, hhosts]
    simp [get_cors_origins, h2, corsOriginsFold_eq, hhosts]
    decide

/-- Witness for C8 at concrete configurations: wildcard, key-only, localhost
with a plain host, and the lone CIDR entry. -/
theorem c8_witness :
    get_cors_origins (some ⟨none, 8080, [], []⟩) = ["*"]
    ∧ get_cors_origins (some ⟨some "k", 8080, [], []⟩) = []
    ∧ get_cors_origins (some ⟨none, 8080, [], ["LocalHost", "10.0.0.1"]⟩) =
        (["LocalHost", "10.0.0.1"] : List String).flatMap corsExpand
    ∧ get_cors_origins (some ⟨none, 8080, [], ["192.168.1.0/24"]⟩) = [] :=
  ⟨(c8_cors_origins _).1 (by decide) (by decide),
    (c8_cors_origins _).2.1 (by decide) (by decide),
    (c8_cors_origins _).2.2.1 (by decide),
    (c8_cors_origins _).2.2.2 (by decide) rfl⟩

/-- C9: `control_service` answers 404 exactly when no configured record's
`service` field equals the requested name — without consulting the backend,
as the result is the same for every backend — and otherwise relays the
backend's success flag and message verbatim together with the record's
display name. -/
theorem c9_control_service (services : List ServiceRecord)
    (backend : String → ServiceAction → BackendResult)
    (service_name : String) (action : ServiceAction) :
    ((∀ s, s ∈ services → s.service ≠ service_name) →
      ∀ backend2 : String → ServiceAction → BackendResult,
        control_service services backend2 service_name action =
          .notFound ("Service '" ++ service_name ++ "' not found in configured services"))
    ∧ (∀ rs, control_service services backend service_name action = .notFound rs →
        ∀ r, r ∈ services → r.service ≠ service_name)
    ∧ (∀ service_info, get_service_by_name services service_name = some service_info →
        control_service services backend service_name action =
          .ok (backend service_name action).success (backend service_name action).message
            service_info.displayName) := by
  refine ⟨?_, ?_, ?_⟩
  · intro habs backend2
    have hnone : get_service_by_name services service_name = none := by
      rw [get_service_by_name, List.find?_eq_none]
      intro s hs
      simp [habs s hs]
    rw [control_service.eq_def, hnone]
  · intro rs hnf r hr
    cases hfind : get_service_by_name services service_name with
    | none =>
      have := (List.find?_eq_none.mp hfind) r hr
      simpa using this
    | some info =>
      rw [control_service.eq_def, hfind] at hnf
      simp at hnf
  · intro service_info hfind
    rw [control_service.eq_def, hfind]

/-- Witness for C9: the spec's end-to-end example — a configured
`nginx.service` record found and relayed, and an unknown name answered 404
under two different backends. -/
theorem c9_witness :
    control_service [⟨"nginx.service", "Web Server", "d"⟩]
        (fun _ _ => ⟨true, "Service restart successful"⟩) "nginx.service" .restart =
      .ok true "Service restart successful" "Web Server"
    ∧ control_service [⟨"nginx.service", "Web Server", "d"⟩]
        (fun _ _ => ⟨false, "boom"⟩) "unknown.service" .restart =
      .notFound "Service 'unknown.service' not found in configured services"
    ∧ control_service [⟨"nginx.service", "Web Server", "d"⟩]
        (fun _ _ => ⟨true, "other"⟩) "unknown.service" .restart =
      .notFound "Service 'unknown.service' not found in configured services" :=
  ⟨(c9_control_service [⟨"nginx.service", "Web Server", "d"⟩]
      (fun _ _ => ⟨true, "Service restart successful"⟩) "nginx.service" .restart).2.2
      ⟨"nginx.service", "Web Server", "d"⟩ (by decide),
    (c9_control_service [⟨"nginx.service", "Web Server", "d"⟩]
      (fun _ _ => ⟨false, "boom"⟩) "unknown.service" .restart).1
      (by intro s hs; simp at hs; simp [hs]) _,
    (c9_control_service [⟨"nginx.service", "Web Server", "d"⟩]
      (fun _ _ => ⟨false, "boom"⟩) "unknown.service" .restart).1
      (by intro s hs; simp at hs; simp [hs]) _⟩

/-- C10: `is_ip_allowed` is a total boolean function whose failure handling
is structural: a client that does not parse is matched by literal membership
of the raw string in the list; for a parsed client the scan proceeds entry by
entry, and a non-`localhost` entry that fails to parse (as a CIDR network
when it contains `/`, as an address otherwise) degrades to literal equality
with the raw client string without aborting the remaining scan. -/
theorem c10_total_and_fallbacks :
    (∀ (ip : String) (hosts : List String), ip_address ip = none →
      is_ip_allowed ip hosts = hosts.contains ip)
    ∧ (∀ (ip : String) (addr : IPAddr) (e : String) (rest : List String),
        ip_address ip = some addr →
        is_ip_allowed ip (e :: rest) =
          (matchesEntry ip addr e || is_ip_allowed ip rest))
    ∧ (∀ (ip : String) (addr : IPAddr) (e : String),
        ip_address ip = some addr → strLower e ≠ "localhost" →
        ((e.data.contains '/' = true → ip_network e = none →
            matchesEntry ip addr e = (ip == e))
          ∧ (e.data.contains '/' = false → ip_address e = none →
            matchesEntry ip addr e = (ip == e)))) := by
  refine ⟨?_, ?_, ?_⟩
  · intro ip hosts hip
    rw [is_ip_allowed.eq_def, hip]
  · intro ip addr e rest hip
    rw [is_ip_allowed.eq_def, hip, is_ip_allowed.eq_def, hip]
    rfl
  · intro ip addr e hip hlocal
    constructor
    · intro hslash hnet
      rw [matchesEntry.eq_def, if_neg hlocal, if_pos hslash, hnet]
    · intro hslash haddr
      have hns : ¬ e.data.contains '/' = true := by rw [hslash]; exact Bool.false_ne_true
      rw [matchesEntry.eq_def, if_neg hlocal, if_neg hns, haddr]

/-- Witness for C10: the three structural fallbacks at concrete inputs — an
unparseable client, a malformed CIDR entry in mid-list, and an unparseable
plain entry. -/
theorem c10_witness :
    is_ip_allowed "not an ip" ["10.0.0.1"] = (["10.0.0.1"] : List String).contains "not an ip"
    ∧ is_ip_allowed "1.2.3.4" ["zz/cidr", "1.2.3.0/24"] =
        (matchesEntry "1.2.3.4" (.v4 16909060) "zz/cidr" ||
          is_ip_allowed "1.2.3.4" ["1.2.3.0/24"])
    ∧ matchesEntry "1.2.3.4" (.v4 16909060) "zz/cidr" = ("1.2.3.4" == "zz/cidr")
    ∧ matchesEntry "1.2.3.4" (.v4 16909060) "myhost.local" = ("1.2.3.4" == "myhost.local") :=
  ⟨c10_total_and_fallbacks.1 "not an ip" ["10.0.0.1"] (by decide),
    c10_total_and_fallbacks.2.1 "1.2.3.4" (.v4 16909060) "zz/cidr" ["1.2.3.0/24"] (by decide),
    (c10_total_and_fallbacks.2.2 "1.2.3.4" (.v4 16909060) "zz/cidr" (by decide)
      (by decide)).1 (by decide) (by decide),
    (c10_total_and_fallbacks.2.2 "1.2.3.4" (.v4 16909060) "myhost.local" (by decide)
      (by decide)).2 (by decide) (by decide)⟩
